import Mathlib

/-!
# Verification of the V2Device management plane

A shallow embedding of the V2Device core (V2Device.cpp / V2Device.h): the
JSON-over-SysEx dispatcher, the configuration-record read/write lifecycle,
the chunked firmware-update handler, the boot-carryover port override and
the 7-bit unicode escaper.  External collaborators (the JSON library,
base64 decode, the hash/verify primitive, flash and EEPROM drivers, the
MIDI transport) are modelled as function parameters or as explicit effect
events, exactly at the call boundary the source uses.  Machine integers
are modelled as Nat with explicit `% 2^w` where C overflow or narrowing
matters.
-/

namespace V2Device

/-- Little-endian 32-bit read of four bytes at offset `i`; reads past the
end of the list yield 0. -/
def le32 (l : List Nat) (i : Nat) : Nat :=
  l.getD i 0 + 256 * l.getD (i + 1) 0 + 65536 * l.getD (i + 2) 0 + 16777216 * l.getD (i + 3) 0

/-- Write the byte `v` at index `i` (models a single `uint8_t` store). -/
def setByte (l : List Nat) (i v : Nat) : List Nat :=
  l.set i v

/-- Little-endian 32-bit store of `v` at offset `i`. -/
def setLE32 (l : List Nat) (i v : Nat) : List Nat :=
  setByte (setByte (setByte (setByte l i (v % 256)) (i + 1) (v / 256 % 256))
    (i + 2) (v / 65536 % 256)) (i + 3) (v / 16777216 % 256)

/-- Store a run of bytes starting at index `i` (models `memcpy`/`strcpy`
into the middle of a buffer). -/
def writeBytes : List Nat → Nat → List Nat → List Nat
  | l, _, [] => l
  | l, i, b :: bs => writeBytes (l.set i b) (i + 1) bs

/-! ## utf8Codepoint (V2Device.cpp lines 173-228) -/

/-- The continuation-byte loop of `utf8Codepoint`: each of the remaining
`k` bytes must match `10xxxxxx`; its low six bits are shifted into the
codepoint.  A read past the end of the buffer is modelled as the byte 0,
which fails the continuation check. -/
def utf8ContLoop (utf8 : List Nat) : Nat → Nat → Nat → Option Nat
  | 0, _, cp => some cp
  | k + 1, i, cp =>
    if utf8.getD i 0 &&& 0xc0 = 0x80 then
      utf8ContLoop utf8 k (i + 1) ((cp <<< 6) ||| (utf8.getD i 0 &&& 0x3f))
    else
      none

/-- `utf8Codepoint`: classify the leading byte (historical 1..6 byte
forms), then decode the continuation bytes.  The C function returns the
sequence length as `int8_t` and the codepoint through a pointer; `-1`
(malformed) is modelled as `none`. -/
def utf8Codepoint (utf8 : List Nat) : Option (Nat × Nat) :=
  let b0 := utf8.getD 0 0
  if b0 < 0x80 then
    (utf8ContLoop utf8 0 1 b0).map (fun cp => (1, cp))
  else if b0 &&& 0xe0 = 0xc0 then
    (utf8ContLoop utf8 1 1 (b0 &&& 0x1f)).map (fun cp => (2, cp))
  else if b0 &&& 0xf0 = 0xe0 then
    (utf8ContLoop utf8 2 1 (b0 &&& 0x0f)).map (fun cp => (3, cp))
  else if b0 &&& 0xf8 = 0xf0 then
    (utf8ContLoop utf8 3 1 (b0 &&& 0x07)).map (fun cp => (4, cp))
  else if b0 &&& 0xfc = 0xf8 then
    (utf8ContLoop utf8 4 1 (b0 &&& 0x03)).map (fun cp => (5, cp))
  else if b0 &&& 0xfe = 0xfc then
    (utf8ContLoop utf8 5 1 (b0 &&& 0x01)).map (fun cp => (6, cp))
  else
    none

/-! ## escapeJSON (V2Device.cpp lines 255-294) -/

/-- One lowercase hexadecimal digit, as `sprintf %x` renders it. -/
def hexDigit (n : Nat) : Nat :=
  if n < 10 then 48 + n else 87 + n

/-- Four lowercase hexadecimal digits, as `sprintf %04x` renders a value
below 0x10000. -/
def hex4 (n : Nat) : List Nat :=
  [hexDigit (n / 4096 % 16), hexDigit (n / 256 % 16), hexDigit (n / 16 % 16), hexDigit (n % 16)]

/-- The bytes produced by `sprintf "\u%04x"`. -/
def uEsc (n : Nat) : List Nat :=
  92 :: 117 :: hex4 n

/-- The surrogate-pair branch of `escapeJSON`: `codepoint -= 0x10000` in
`uint32_t` arithmetic (which wraps when the codepoint is below 0x10000),
then the two `uint16_t` surrogate values, each rendered as `\uXXXX`. -/
def surrogatePair (cp : Nat) : List Nat :=
  let c := (cp + 2 ^ 32 - 0x10000) % 2 ^ 32
  let s1 := ((c >>> 10) + 0xd800) % 2 ^ 16
  let s2 := (c % 0x400 + 0xdc00) % 2 ^ 16
  uEsc s1 ++ uEsc s2

/-- The loop of `escapeJSON`.  `junk` models the value of the
uninitialized local `codepoint` that the source reads when
`utf8Codepoint` fails: the C return value `-1` (an `int8_t`) is stored
into the `uint8_t` local `len`, so the `len < 0` guard can never fire;
the loop then advances the index by 254 (consuming 255 bytes) and renders
the uninitialized codepoint.  `bl` is `buffer_len`, `size` the output
capacity; `none` models the `return 0` overflow exits.  `fuel` bounds the
recursion; every step consumes at least one input byte, so fuel equal to
the input length is never exhausted. -/
def escLoop (junk size : Nat) : Nat → List Nat → Nat → Option (List Nat)
  | _, [], _ => some []
  | 0, _ :: _, _ => some []
  | fuel + 1, b :: rest, bl =>
    if 0x7f < b then
      match utf8Codepoint (b :: rest) with
      | some (len, cp) =>
        if cp < 0xffff then
          if size < bl + 7 then none
          else (escLoop junk size fuel ((b :: rest).drop len) (bl + 6)).map (fun o => uEsc cp ++ o)
        else
          if size < bl + 13 then none
          else (escLoop junk size fuel ((b :: rest).drop len) (bl + 12)).map
            (fun o => surrogatePair cp ++ o)
      | none =>
        let jk := junk % 2 ^ 32
        if jk < 0xffff then
          if size < bl + 7 then none
          else (escLoop junk size fuel ((b :: rest).drop 255) (bl + 6)).map (fun o => uEsc jk ++ o)
        else
          if size < bl + 13 then none
          else (escLoop junk size fuel ((b :: rest).drop 255) (bl + 12)).map
            (fun o => surrogatePair jk ++ o)
    else
      if size ≤ bl then none
      else (escLoop junk size fuel rest (bl + 1)).map (fun o => b :: o)

/-- `escapeJSON` before collapsing the overflow exit: `none` is the
`return 0` path, `some out` the successfully escaped bytes. -/
def escapeJSONChecked (junk : Nat) (json : List Nat) (size : Nat) : Option (List Nat) :=
  escLoop junk size json.length json 0

/-- `escapeJSON` as its caller sees it: the overflow exit returns length
0, i.e. no output bytes. -/
def escapeJSON (junk : Nat) (json : List Nat) (size : Nat) : List Nat :=
  (escapeJSONChecked junk json size).getD []

/-! ## sendReply framing (V2Device.cpp lines 317-474) -/

/-- V2MIDI::Packet::Status::SystemExclusive, the MIDI SysEx start byte. -/
def systemExclusiveStart : Nat := 0xf0

/-- V2MIDI::Packet::Status::SystemExclusiveEnd, the MIDI SysEx end byte. -/
def systemExclusiveEnd : Nat := 0xf7

/-- `sysex_max_size` (V2Device.h): maximum system-exclusive message size. -/
def sysexMaxSize : Nat := 12 * 1024

/-- The framing and escaping tail of `V2Device::sendReply`: the JSON
document built by the ArduinoJson collaborator is abstracted as the
serialized byte list `jsonBytes`.  The frame is the SysEx start byte, the
private-use id 0x7d, the escaped document, and the SysEx end byte; the
frame is handed to `sendSystemExclusive` unconditionally, whatever
`escapeJSON` returned. -/
def sendReply (junk : Nat) (jsonBytes : List Nat) : List Nat :=
  systemExclusiveStart :: 0x7d :: (escapeJSON junk jsonBytes (sysexMaxSize - 2) ++ [systemExclusiveEnd])

/-! ## Device state (V2Device.h)

`struct Configuration` is kept as its 52-byte memory image, because the
source reads and writes it both field-wise and with `memcpy`.  Layout on
a 32-bit ARM target (4-byte alignment):
offset 0 `header.magic` (u32), 4 `header.size` (u32), 8 `name` (32
bytes), 40 `ports` (u8), 41..43 padding, 44 `local.magic` (u32),
48 `local.size` (u32); `sizeof` = 52, `sizeof(Header)` = 8. -/

/-- `sizeof(struct Configuration::Header)`. -/
def headerOnlySize : Nat := 8

/-- `sizeof(struct Configuration)` = full in-memory record capacity. -/
def configurationSize : Nat := 52

/-- The compiled-in header magic 0x7ed63a89. -/
def configMagic : Nat := 0x7ed63a89

/-- The compiled-in default `_configuration` image: magic, size = 52,
name all-NUL, ports = 1, padding, local section zeroed. -/
def defaultConf : List Nat :=
  [0x89, 0x3a, 0xd6, 0x7e] ++ [52, 0, 0, 0] ++ List.replicate 32 0 ++ [1] ++ [0, 0, 0] ++
    List.replicate 8 0

/-- `system.ports` (V2Device.h): configured/announce/current default 1,
reboot default 0. -/
structure PortsState where
  configured : Nat
  announce : Nat
  current : Nat
  reboot : Nat
deriving DecidableEq, Repr

/-- The `system` member: the custom USB name pointer (`none` = NULL) and
the port counters. -/
structure SystemState where
  name : Option (List Nat)
  ports : PortsState
deriving DecidableEq, Repr

/-- The `configuration` member: the collaborator-registered
device-specific section (magic, declared size, payload buffer; `none`
models a NULL data pointer). -/
structure LocalConf where
  magic : Nat
  size : Nat
  data : Option (List Nat)
deriving DecidableEq, Repr

/-- The device state the dispatcher touches: the `_configuration` byte
image, the `system` member, the per-boot token `_boot.id`, the retained
`bootData.n_ports`, and the collaborator section. -/
structure DeviceState where
  conf : List Nat
  system : SystemState
  bootId : Nat
  bootDataPorts : Nat
  localConf : LocalConf
deriving DecidableEq, Repr

/-- The freshly constructed state: compiled-in defaults, NULL name, all
port counters at their member initializers, no collaborator section. -/
def initialState (bootId : Nat) : DeviceState :=
  { conf := defaultConf
    system := { name := none, ports := { configured := 1, announce := 1, current := 1, reboot := 0 } }
    bootId := bootId
    bootDataPorts := 0
    localConf := { magic := 0, size := 0, data := none } }

/-! ## readEEPROM (V2Device.cpp lines 35-70) -/

/-- `V2Device::readEEPROM`: `eeprom` is the contents of the persistent
storage region.  The three header guards abort the read and keep the
in-memory state; otherwise `header.size` bytes are copied over the
in-memory record, the name override applies if the stored name is
non-empty, the ports override if the stored count exceeds one, and the
device-specific section is copied only when the collaborator registered
a buffer and the local magic/size checks pass. -/
def readEEPROM (eeprom : List Nat) (s : DeviceState) : DeviceState :=
  if le32 eeprom 0 ≠ le32 s.conf 0 then s
  else if le32 eeprom 4 ≤ headerOnlySize then s
  else if configurationSize < le32 eeprom 4 then s
  else
    let sz := le32 eeprom 4
    let conf := eeprom.take sz ++ s.conf.drop sz
    let s1 := { s with conf := conf }
    let s2 :=
      if conf.getD 8 0 ≠ 0 then
        { s1 with system := { s1.system with name := some ((conf.drop 8).takeWhile (fun b => b ≠ 0)) } }
      else s1
    let s3 :=
      if 1 < conf.getD 40 0 then
        { s2 with system :=
            { s2.system with ports := { s2.system.ports with configured := conf.getD 40 0 } } }
      else s2
    match s3.localConf.data with
    | none => s3
    | some _ =>
      if le32 eeprom 44 ≠ s3.localConf.magic then s3
      else if le32 eeprom 48 = 0 then s3
      else if s3.localConf.size < le32 eeprom 48 then s3
      else
        { s3 with localConf :=
            { s3.localConf with data := some ((eeprom.drop sz).take (le32 eeprom 48)) } }

/-! ## The request/effect model -/

/-- The observable calls the dispatcher makes into its collaborators, in
program order.  `activate` is `V2Memory::Firmware::Secondary::activate`,
which resets into the new image and does not return. -/
inductive Effect where
  | reply
  | fwStatus (status : String)
  | eepromErase
  | eepromWrite (offset : Nat) (bytes : List Nat)
  | rebootDevice
  | switchChannelCall (channel : Nat)
  | importConfig
  | ledWrite (high : Bool)
  | writeBlock (offset : Nat) (block : List Nat)
  | copyBootloader
  | verify (length : Nat) (hash : List Nat)
  | flushSysEx
  | delayMs (ms : Nat)
  | activate
deriving DecidableEq, Repr

/-- The `configuration.usb` request object: an optional name string (as
bytes) and an optional port count. -/
structure UsbConfig where
  name : Option (List Nat)
  ports : Option Nat
deriving DecidableEq, Repr

/-- The `configuration` request object. -/
structure ConfigObj where
  usb : Option UsbConfig
deriving DecidableEq, Repr

/-- The `firmware` request object: `offset` (a missing field reads as
0), the base64 `data` string, and the optional final-chunk `hash`. -/
structure FirmwareObj where
  offset : Nat
  data : List Nat
  hash : Option (List Nat)
deriving DecidableEq, Repr

/-- A parsed request under the `com.versioduo.device` key, after the
framing and JSON-parse stages (the ArduinoJson collaborator). -/
structure Request where
  token : Option Nat
  method : String
  channel : Option Nat
  rebootPorts : Option Nat
  config : Option ConfigObj
  firmware : Option FirmwareObj
deriving DecidableEq, Repr

/-! ## writeConfiguration, the store method (V2Device.cpp lines 632-642) -/

/-- `V2Device::writeConfiguration`: set `header.size` to the full
structure size and the local sub-header from the collaborator's current
values, write the whole record at EEPROM offset 0, then the collaborator
payload right after it when one is declared. -/
def writeConfiguration (s : DeviceState) : DeviceState × List Effect :=
  let conf1 := setLE32 (setLE32 (setLE32 s.conf 4 configurationSize) 44 s.localConf.magic)
    48 s.localConf.size
  ({ s with conf := conf1 },
    Effect.eepromWrite 0 conf1 ::
      (if 0 < s.localConf.size then [Effect.eepromWrite configurationSize (s.localConf.data.getD [])]
       else []))

/-! ## The method handlers (V2Device.cpp lines 477-630) -/

/-- The `writeConfiguration` method body: merge the name (the source
stores a name only when `strlen(n) > 1 && strlen(n) < 32`, anything else
clears it), merge the port count when in 1..16, let the collaborator
bring in its device-specific section, persist, and always reply with the
full state. -/
def handleWriteConfig (s : DeviceState) (req : Request) : DeviceState × List Effect :=
  match req.config with
  | none => (s, [Effect.reply])
  | some c =>
    let sA :=
      match c.usb with
      | none => s
      | some u =>
        let sName :=
          match u.name with
          | none => s
          | some n =>
            if 1 < n.length ∧ n.length < 32 then
              { s with
                system := { s.system with name := some n }
                conf := writeBytes s.conf 8 (n ++ [0]) }
            else
              { s with
                system := { s.system with name := none }
                conf := writeBytes s.conf 8 (List.replicate 32 0) }
        match u.ports with
        | none => sName
        | some pj =>
          let p := pj % 256
          if 1 ≤ p ∧ p ≤ 16 then
            { sName with
              system := { sName.system with ports := { sName.system.ports with configured := p } }
              conf := setByte sName.conf 40 p }
          else sName
    let effImport := if 0 < sA.localConf.size then [Effect.importConfig] else []
    let w := writeConfiguration sA
    (w.1, effImport ++ w.2 ++ [Effect.reply])

/-- The `writeFirmware` method body.  `decodeF` models
`V2Cryptography::Base64::decode` (the decoded bytes), `verifyF` models
`V2Memory::Firmware::Secondary::verify`, `blockSize` is
`V2Memory::Flash::getBlockSize()`.  A misaligned offset replies
`invalidOffset` before anything is written; otherwise the decoded block
is padded with 0xff to the block size and written; a chunk carrying a
hash copies the bootloader, verifies `offset + block_len` bytes and
either replies `success` and activates (which does not return), or
replies `hashMismatch`. -/
def handleWriteFirmware (decodeF : List Nat → List Nat) (verifyF : Nat → List Nat → Bool)
    (blockSize : Nat) (s : DeviceState) (req : Request) : DeviceState × List Effect :=
  match req.firmware with
  | none => (s, [])
  | some fw =>
    if fw.offset % blockSize ≠ 0 then
      (s, [Effect.fwStatus "invalidOffset"])
    else
      let decoded := decodeF fw.data
      let block := decoded ++ List.replicate (blockSize - decoded.length) 0xff
      let pre := [Effect.ledWrite true, Effect.writeBlock fw.offset block, Effect.ledWrite false]
      match fw.hash with
      | some h =>
        if verifyF (fw.offset + decoded.length) h then
          (s, pre ++ [Effect.copyBootloader, Effect.verify (fw.offset + decoded.length) h,
            Effect.fwStatus "success", Effect.flushSysEx, Effect.ledWrite true, Effect.delayMs 100,
            Effect.activate])
        else
          (s, pre ++ [Effect.copyBootloader, Effect.verify (fw.offset + decoded.length) h,
            Effect.fwStatus "hashMismatch"])
      | none => (s, pre ++ [Effect.fwStatus "success"])

/-- The method dispatch chain of `handleSystemExclusive`, after the
session-token check: each recognized method in source order; an
unrecognized method does nothing. -/
def handleMethod (decodeF : List Nat → List Nat) (verifyF : Nat → List Nat → Bool)
    (blockSize : Nat) (s : DeviceState) (req : Request) : DeviceState × List Effect :=
  if req.method = "getAll" then (s, [Effect.reply])
  else if req.method = "eraseConfiguration" then (s, [Effect.eepromErase, Effect.rebootDevice])
  else if req.method = "switchChannel" then
    (s, (match req.channel with
         | some ch => [Effect.switchChannelCall ch]
         | none => []) ++ [Effect.reply])
  else if req.method = "reboot" then
    ((match req.rebootPorts with
      | some p => { s with bootDataPorts := p % 256 }
      | none => s), [Effect.rebootDevice])
  else if req.method = "writeConfiguration" then handleWriteConfig s req
  else if req.method = "writeFirmware" then handleWriteFirmware decodeF verifyF blockSize s req
  else (s, [])

/-- `V2Device::handleSystemExclusive` from the session-token check on
(the earlier framing and JSON-parse rejections produce the parsed
`Request`): a present token that differs from `_boot.id` drops the
request with no reply and no state change; an absent token bypasses the
check. -/
def handleSystemExclusive (decodeF : List Nat → List Nat) (verifyF : Nat → List Nat → Bool)
    (blockSize : Nat) (s : DeviceState) (req : Request) : DeviceState × List Effect :=
  match req.token with
  | some t => if t ≠ s.bootId then (s, []) else handleMethod decodeF verifyF blockSize s req
  | none => handleMethod decodeF verifyF blockSize s req

/-! ## The boot-cycle port logic (V2Device.cpp lines 14-33, 86-90, 120-140) -/

/-- The `bootData` / port-count portion of `V2Device::begin` for one
boot: take the retained `bootData.n_ports` into `system.ports.reboot`
when above one, clear the retained record, then pick the current port
count (reboot override first, else the configured value, else one).
Returns the resulting `system.ports.current` and the retained
`bootData.n_ports` left for the next cycle. -/
def beginBootPorts (retainedPorts configured : Nat) : Nat × Nat :=
  let rebootPorts := if 1 < retainedPorts then retainedPorts else 0
  let ports := if 1 < rebootPorts then rebootPorts else if 1 < configured then configured else 1
  let current := if 1 < ports then ports else 1
  (current, 0)

/-! # Theorems -/

/-! ## Helper lemmas about byte-buffer stores -/

theorem getD_set_ne (l : List Nat) (i j v : Nat) (h : i ≠ j) :
    (l.set i v).getD j 0 = l.getD j 0 := by
  rw [List.getD_eq_getElem?_getD, List.getD_eq_getElem?_getD, List.getElem?_set_ne h]

theorem getD_set_eq (l : List Nat) (i v : Nat) (h : i < l.length) :
    (l.set i v).getD i 0 = v := by
  rw [List.getD_eq_getElem?_getD, List.getElem?_set_eq_of_lt v h]
  rfl

theorem getD_setLE32_ne (l : List Nat) (i v j : Nat) (h : j < i ∨ i + 4 ≤ j) :
    (setLE32 l i v).getD j 0 = l.getD j 0 := by
  unfold setLE32 setByte
  rw [getD_set_ne _ _ _ _ (by omega), getD_set_ne _ _ _ _ (by omega),
    getD_set_ne _ _ _ _ (by omega), getD_set_ne _ _ _ _ (by omega)]

theorem setLE32_length (l : List Nat) (i v : Nat) : (setLE32 l i v).length = l.length := by
  unfold setLE32 setByte
  simp

theorem writeBytes_length : ∀ (bs l : List Nat) (i : Nat),
    (writeBytes l i bs).length = l.length := by
  intro bs
  induction bs with
  | nil => intro l i; rfl
  | cons b bs ih => intro l i; rw [writeBytes, ih, List.length_set]

theorem writeBytes_getD_lt : ∀ (bs l : List Nat) (i j : Nat), j < i →
    (writeBytes l i bs).getD j 0 = l.getD j 0 := by
  intro bs
  induction bs with
  | nil => intro l i j _; rfl
  | cons b bs ih =>
    intro l i j hj
    rw [writeBytes, ih _ _ _ (by omega), getD_set_ne _ _ _ _ (by omega)]

theorem writeBytes_getD_in : ∀ (bs l : List Nat) (i k : Nat), k < bs.length →
    i + bs.length ≤ l.length → (writeBytes l i bs).getD (i + k) 0 = bs.getD k 0 := by
  intro bs
  induction bs with
  | nil => intro l i k hk _; simp at hk
  | cons b bs ih =>
    intro l i k hk hlen
    match k with
    | 0 =>
      rw [writeBytes, writeBytes_getD_lt _ _ _ _ (by omega)]
      have hi : i < l.length := by simp at hlen; omega
      simpa using getD_set_eq l i b hi
    | k + 1 =>
      rw [writeBytes, show i + (k + 1) = (i + 1) + k by omega,
        ih (l.set i b) (i + 1) k (by simpa using hk) (by simp at hlen ⊢; omega)]
      rfl

/-! ## Helper lemmas about the escaper output -/

theorem hexDigit_mod16_ne_66 (m : Nat) : hexDigit (m % 16) ≠ 66 := by
  have h : m % 16 < 16 := Nat.mod_lt _ (by omega)
  unfold hexDigit
  split <;> omega

theorem not_66_mem_uEsc (v : Nat) : 66 ∉ uEsc v := by
  intro h
  simp only [uEsc, hex4, List.mem_cons, List.mem_singleton, List.mem_nil_iff, or_false] at h
  rcases h with h | h | h | h | h | h
  · omega
  · omega
  · exact hexDigit_mod16_ne_66 _ h.symm
  · exact hexDigit_mod16_ne_66 _ h.symm
  · exact hexDigit_mod16_ne_66 _ h.symm
  · exact hexDigit_mod16_ne_66 _ h.symm

theorem not_66_mem_surrogatePair (v : Nat) : 66 ∉ surrogatePair v := by
  intro h
  simp only [surrogatePair, List.mem_append] at h
  rcases h with h | h
  · exact not_66_mem_uEsc _ h
  · exact not_66_mem_uEsc _ h

theorem escLoop_ascii_overflow (junk size : Nat) :
    ∀ (l : List Nat) (fuel bl : Nat), l ≠ [] → (∀ b ∈ l, b ≤ 0x7f) →
      size < bl + l.length → l.length ≤ fuel →
      escLoop junk size fuel l bl = none := by
  intro l
  induction l with
  | nil => intro fuel bl h _ _ _; exact absurd rfl h
  | cons b rest ih =>
    intro fuel bl _ hmem hov hfuel
    match fuel with
    | 0 => simp at hfuel
    | fuel + 1 =>
      have hb : ¬ (0x7f < b) := by
        have := hmem b (List.mem_cons_self b rest)
        omega
      simp only [escLoop, if_neg hb]
      by_cases hbl : size ≤ bl
      · rw [if_pos hbl]
      · rw [if_neg hbl]
        have hrest : rest ≠ [] := by
          intro he
          subst he
          simp at hov
          omega
        rw [ih fuel (bl + 1) hrest (fun x hx => hmem x (List.mem_cons_of_mem _ hx))
          (by simp at hov ⊢; omega) (by simp at hfuel ⊢; omega)]
        rfl

/-- C1: a `writeFirmware` request carrying a hash (final chunk) whose
secondary-bank verification succeeds replies `success` and then invokes
the non-returning activate primitive (nothing follows it in the trace);
when verification fails it replies `hashMismatch` and the activate
primitive is never invoked. -/
theorem c1_final_chunk_hash_gate
    (decodeF : List Nat → List Nat) (verifyF : Nat → List Nat → Bool) (blockSize : Nat)
    (s : DeviceState) (req : Request) (fw : FirmwareObj) (h : List Nat)
    (hm : req.method = "writeFirmware") (hf : req.firmware = some fw)
    (ha : fw.offset % blockSize = 0) (hh : fw.hash = some h)
    (_hlen : (decodeF fw.data).length ≤ blockSize) :
    (verifyF (fw.offset + (decodeF fw.data).length) h = true →
      handleMethod decodeF verifyF blockSize s req =
        (s, [Effect.ledWrite true,
             Effect.writeBlock fw.offset
               (decodeF fw.data ++ List.replicate (blockSize - (decodeF fw.data).length) 0xff),
             Effect.ledWrite false, Effect.copyBootloader,
             Effect.verify (fw.offset + (decodeF fw.data).length) h,
             Effect.fwStatus "success", Effect.flushSysEx, Effect.ledWrite true,
             Effect.delayMs 100, Effect.activate]))
    ∧ (verifyF (fw.offset + (decodeF fw.data).length) h = false →
      handleMethod decodeF verifyF blockSize s req =
        (s, [Effect.ledWrite true,
             Effect.writeBlock fw.offset
               (decodeF fw.data ++ List.replicate (blockSize - (decodeF fw.data).length) 0xff),
             Effect.ledWrite false, Effect.copyBootloader,
             Effect.verify (fw.offset + (decodeF fw.data).length) h,
             Effect.fwStatus "hashMismatch"])
      ∧ Effect.activate ∉ (handleMethod decodeF verifyF blockSize s req).2) := by
  constructor
  · intro hv
    simp [handleMethod, hm, handleWriteFirmware, hf, ha, hh, hv]
  · intro hv
    constructor
    · simp [handleMethod, hm, handleWriteFirmware, hf, ha, hh, hv]
    · simp [handleMethod, hm, handleWriteFirmware, hf, ha, hh, hv]

/-- Witness for C1: a concrete final chunk at offset 0 with an empty
payload, once with a verifier that accepts and once with one that
rejects. -/
theorem c1_final_chunk_hash_gate_witness :
    handleMethod (fun _ => []) (fun _ _ => true) 8192 (initialState 7)
      { token := none, method := "writeFirmware", channel := none, rebootPorts := none,
        config := none, firmware := some { offset := 0, data := [], hash := some [97] } } =
      (initialState 7,
       [Effect.ledWrite true, Effect.writeBlock 0 (List.replicate 8192 0xff),
        Effect.ledWrite false, Effect.copyBootloader, Effect.verify 0 [97],
        Effect.fwStatus "success", Effect.flushSysEx, Effect.ledWrite true,
        Effect.delayMs 100, Effect.activate])
    ∧ handleMethod (fun _ => []) (fun _ _ => false) 8192 (initialState 7)
      { token := none, method := "writeFirmware", channel := none, rebootPorts := none,
        config := none, firmware := some { offset := 0, data := [], hash := some [97] } } =
      (initialState 7,
       [Effect.ledWrite true, Effect.writeBlock 0 (List.replicate 8192 0xff),
        Effect.ledWrite false, Effect.copyBootloader, Effect.verify 0 [97],
        Effect.fwStatus "hashMismatch"]) := by
  constructor
  · exact (c1_final_chunk_hash_gate (fun _ => []) (fun _ _ => true) 8192 (initialState 7)
      _ { offset := 0, data := [], hash := some [97] } [97] rfl rfl (by decide) rfl
      (by decide)).1 rfl
  · exact ((c1_final_chunk_hash_gate (fun _ => []) (fun _ _ => false) 8192 (initialState 7)
      _ { offset := 0, data := [], hash := some [97] } [97] rfl rfl (by decide) rfl
      (by decide)).2 rfl).1

/-- C2: a `writeFirmware` request whose offset is not a multiple of the
flash block size produces exactly the `invalidOffset` status reply and
never invokes the secondary-bank writeBlock primitive. -/
theorem c2_misaligned_offset_rejected
    (decodeF : List Nat → List Nat) (verifyF : Nat → List Nat → Bool) (blockSize : Nat)
    (s : DeviceState) (req : Request) (fw : FirmwareObj)
    (hm : req.method = "writeFirmware") (hf : req.firmware = some fw)
    (ha : fw.offset % blockSize ≠ 0) :
    handleMethod decodeF verifyF blockSize s req = (s, [Effect.fwStatus "invalidOffset"])
    ∧ ∀ o b, Effect.writeBlock o b ∉ (handleMethod decodeF verifyF blockSize s req).2 := by
  constructor
  · simp [handleMethod, hm, handleWriteFirmware, hf, ha]
  · intro o b
    simp [handleMethod, hm, handleWriteFirmware, hf, ha]

/-- Witness for C2: offset 100 with block size 8192. -/
theorem c2_misaligned_offset_rejected_witness :
    handleMethod (fun _ => []) (fun _ _ => true) 8192 (initialState 7)
      { token := none, method := "writeFirmware", channel := none, rebootPorts := none,
        config := none, firmware := some { offset := 100, data := [], hash := none } } =
      (initialState 7, [Effect.fwStatus "invalidOffset"]) :=
  (c2_misaligned_offset_rejected (fun _ => []) (fun _ _ => true) 8192 (initialState 7)
    _ { offset := 100, data := [], hash := none } rfl rfl (by decide)).1

/-- C10: a final `writeFirmware` chunk passes exactly
`offset + (base64-decoded length)` as the verification length to the
hash primitive, so the 0xff padding appended up to the block size lies
outside the hashed range. -/
theorem c10_verify_length_excludes_padding
    (decodeF : List Nat → List Nat) (verifyF : Nat → List Nat → Bool) (blockSize : Nat)
    (s : DeviceState) (req : Request) (fw : FirmwareObj) (h : List Nat)
    (hm : req.method = "writeFirmware") (hf : req.firmware = some fw)
    (ha : fw.offset % blockSize = 0) (hh : fw.hash = some h) :
    Effect.verify (fw.offset + (decodeF fw.data).length) h
      ∈ (handleMethod decodeF verifyF blockSize s req).2
    ∧ ∀ L h2, Effect.verify L h2 ∈ (handleMethod decodeF verifyF blockSize s req).2 →
        L = fw.offset + (decodeF fw.data).length ∧ h2 = h := by
  cases hv : verifyF (fw.offset + (decodeF fw.data).length) h
  · constructor
    · simp [handleMethod, hm, handleWriteFirmware, hf, ha, hh, hv]
    · intro L h2 hmem
      simp [handleMethod, hm, handleWriteFirmware, hf, ha, hh, hv] at hmem
      exact hmem
  · constructor
    · simp [handleMethod, hm, handleWriteFirmware, hf, ha, hh, hv]
    · intro L h2 hmem
      simp [handleMethod, hm, handleWriteFirmware, hf, ha, hh, hv] at hmem
      exact hmem

/-- Witness for C10: a concrete final chunk whose payload decodes to
three bytes at offset 8192; the verification length is 8195. -/
theorem c10_verify_length_excludes_padding_witness :
    Effect.verify 8195 [97]
      ∈ (handleMethod (fun _ => [1, 2, 3]) (fun _ _ => true) 8192 (initialState 7)
          { token := none, method := "writeFirmware", channel := none, rebootPorts := none,
            config := none,
            firmware := some { offset := 8192, data := [], hash := some [97] } }).2 :=
  (c10_verify_length_excludes_padding (fun _ => [1, 2, 3]) (fun _ _ => true) 8192
    (initialState 7) _ { offset := 8192, data := [], hash := some [97] } [97] rfl rfl
    (by decide) rfl).1

/-- C4: a request carrying a token that differs from the per-boot
session token is dropped completely (no reply, no effect, no state
change); a request without a token bypasses the check and is dispatched
normally. -/
theorem c4_session_token_gate
    (decodeF : List Nat → List Nat) (verifyF : Nat → List Nat → Bool) (blockSize : Nat)
    (s : DeviceState) (req : Request) :
    (∀ t, req.token = some t → t ≠ s.bootId →
      handleSystemExclusive decodeF verifyF blockSize s req = (s, []))
    ∧ (req.token = none →
      handleSystemExclusive decodeF verifyF blockSize s req =
        handleMethod decodeF verifyF blockSize s req) := by
  constructor
  · intro t ht hne
    simp [handleSystemExclusive, ht, hne]
  · intro ht
    simp [handleSystemExclusive, ht]

/-- Witness for C4: with session token 12345, a `getAll` request carrying
token 999 produces no reply and no state change, while the same request
without a token is answered. -/
theorem c4_session_token_gate_witness :
    handleSystemExclusive (fun _ => []) (fun _ _ => true) 8192 (initialState 12345)
      { token := some 999, method := "getAll", channel := none, rebootPorts := none,
        config := none, firmware := none } = (initialState 12345, [])
    ∧ handleSystemExclusive (fun _ => []) (fun _ _ => true) 8192 (initialState 12345)
      { token := none, method := "getAll", channel := none, rebootPorts := none,
        config := none, firmware := none } = (initialState 12345, [Effect.reply]) := by
  constructor
  · exact (c4_session_token_gate (fun _ => []) (fun _ _ => true) 8192 (initialState 12345)
      _).1 999 rfl (by decide)
  · rw [(c4_session_token_gate (fun _ => []) (fun _ _ => true) 8192 (initialState 12345) _).2 rfl]
    simp [handleMethod]

/-- C9: a port count stashed by the `reboot` method lands in the
retained record, is applied as the current port count at the next boot,
the retained record is cleared by that boot, and a further boot without
a new stash reverts the current port count to the persisted configured
value. -/
theorem c9_reboot_ports_consumed_once
    (decodeF : List Nat → List Nat) (verifyF : Nat → List Nat → Bool) (blockSize : Nat)
    (s : DeviceState) (req : Request) (p c : Nat)
    (hm : req.method = "reboot") (hp : req.rebootPorts = some p)
    (h1 : 1 < p) (h2 : p < 256) (hc : 1 ≤ c) :
    (handleMethod decodeF verifyF blockSize s req).1.bootDataPorts = p
    ∧ (beginBootPorts (handleMethod decodeF verifyF blockSize s req).1.bootDataPorts c).1 = p
    ∧ (beginBootPorts (handleMethod decodeF verifyF blockSize s req).1.bootDataPorts c).2 = 0
    ∧ (beginBootPorts
        (beginBootPorts (handleMethod decodeF verifyF blockSize s req).1.bootDataPorts c).2 c).1
        = c := by
  have hbd : (handleMethod decodeF verifyF blockSize s req).1.bootDataPorts = p := by
    simp [handleMethod, hm, hp, Nat.mod_eq_of_lt h2]
  refine ⟨hbd, ?_, ?_, ?_⟩
  · rw [hbd]
    simp [beginBootPorts, h1]
  · rw [hbd]
    simp [beginBootPorts]
  · rw [hbd]
    simp only [beginBootPorts]
    rcases Nat.lt_or_ge 1 c with hc1 | hc1
    · simp [hc1]
    · have : c = 1 := by omega
      subst this
      simp

/-- Witness for C9: `reboot` with ports 2, configured value 4: the first
boot runs with 2 ports, the retained record is cleared, the second boot
reverts to 4. -/
theorem c9_reboot_ports_consumed_once_witness :
    (handleMethod (fun _ => []) (fun _ _ => true) 8192 (initialState 7)
      { token := none, method := "reboot", channel := none, rebootPorts := some 2,
        config := none, firmware := none }).1.bootDataPorts = 2
    ∧ (beginBootPorts (handleMethod (fun _ => []) (fun _ _ => true) 8192 (initialState 7)
        { token := none, method := "reboot", channel := none, rebootPorts := some 2,
          config := none, firmware := none }).1.bootDataPorts 4).1 = 2
    ∧ (beginBootPorts (handleMethod (fun _ => []) (fun _ _ => true) 8192 (initialState 7)
        { token := none, method := "reboot", channel := none, rebootPorts := some 2,
          config := none, firmware := none }).1.bootDataPorts 4).2 = 0
    ∧ (beginBootPorts (beginBootPorts (handleMethod (fun _ => []) (fun _ _ => true) 8192
        (initialState 7)
        { token := none, method := "reboot", channel := none, rebootPorts := some 2,
          config := none, firmware := none }).1.bootDataPorts 4).2 4).1 = 4 :=
  c9_reboot_ports_consumed_once (fun _ => []) (fun _ _ => true) 8192 (initialState 7)
    _ 2 4 rfl rfl (by decide) (by decide) (by decide)

/-- C3: an on-disk buffer whose header magic differs from the
compiled-in constant, or whose declared size is at most the header-only
size, or whose declared size exceeds the in-memory capacity, leaves the
whole device state untouched: the configuration record, the USB name and
the configured port count keep their compiled-in defaults. -/
theorem c3_bad_header_keeps_defaults (eeprom : List Nat) (s : DeviceState)
    (hconf : s.conf = defaultConf)
    (hbad : le32 eeprom 0 ≠ configMagic ∨ le32 eeprom 4 ≤ headerOnlySize
      ∨ configurationSize < le32 eeprom 4) :
    readEEPROM eeprom s = s := by
  have hmagic : le32 defaultConf 0 = configMagic := by decide
  rw [readEEPROM]
  split
  · rfl
  · next hne =>
    split
    · rfl
    · next hsz =>
      split
      · rfl
      · next hcap =>
        exfalso
        rw [hconf, hmagic] at hne
        rcases hbad with hb | hb | hb
        · exact hne (fun hx => hb hx)
        · exact hsz hb
        · exact hcap hb

/-- Witness for C3: a chip-erased EEPROM region (all bytes 0xff) read
against the freshly constructed state changes nothing. -/
theorem c3_bad_header_keeps_defaults_witness :
    readEEPROM (List.replicate 52 0xff) (initialState 0) = initialState 0 :=
  c3_bad_header_keeps_defaults (List.replicate 52 0xff) (initialState 0) rfl
    (Or.inl (by decide))

/-- C7: the escaper's boundary test is `codepoint < 0xffff`, not
`< 0x10000`, while the surrogate branch subtracts 0x10000 in `uint32_t`
arithmetic.  The codepoint U+FFFF (UTF-8 bytes ef bf bf), which the
claim says is rendered as the single escape `￿`, wraps to
0xffffffff and is rendered as the two escapes `퟿\udfff` — not
even a valid surrogate pair. -/
theorem c7_ffff_boundary_wraps :
    escapeJSON 0 [0xef, 0xbf, 0xbf] 100 =
      [92, 117, 100, 55, 102, 102, 92, 117, 100, 102, 102, 102] := by
  decide

/-- C8: a malformed UTF-8 byte is not skipped.  `utf8Codepoint` returns
the `int8_t` value -1, which the caller stores into a `uint8_t`, so the
`len < 0` guard never fires; the loop advances the index by 254 and
renders the uninitialized `codepoint` local (modelled by `junk`).  For
the input `0x41 0xff 0x42`, whatever the uninitialized value was, the
output is `A` followed by one junk escape: the valid byte 0x42 after the
malformed byte never appears in the output, contradicting the claim that
the surrounding valid bytes are preserved. -/
theorem c8_malformed_eats_following_bytes (junk : Nat) :
    escapeJSON junk [0x41, 0xff, 0x42] 1000 =
      0x41 :: (if junk % 2 ^ 32 < 0xffff then uEsc (junk % 2 ^ 32)
               else surrogatePair (junk % 2 ^ 32))
    ∧ 0x42 ∉ escapeJSON junk [0x41, 0xff, 0x42] 1000 := by
  have hu : utf8Codepoint [0xff, 0x42] = none := rfl
  have hdrop : List.drop 255 [(0xff : Nat), 0x42] = [] := by decide
  have heq : escapeJSON junk [0x41, 0xff, 0x42] 1000 =
      0x41 :: (if junk % 2 ^ 32 < 0xffff then uEsc (junk % 2 ^ 32)
               else surrogatePair (junk % 2 ^ 32)) := by
    have hpow : (2 : Nat) ^ 32 = 4294967296 := by norm_num
    rw [hpow]
    by_cases hjk : junk % 4294967296 < 65535 <;>
      simp [escapeJSON, escapeJSONChecked, escLoop, hu, hdrop, hjk]
  refine ⟨heq, ?_⟩
  rw [heq]
  intro hmem
  rcases List.mem_cons.mp hmem with h | h
  · omega
  · by_cases hjk : junk % 2 ^ 32 < 0xffff
    · rw [if_pos hjk] at h
      exact not_66_mem_uEsc _ h
    · rw [if_neg hjk] at h
      exact not_66_mem_surrogatePair _ h

/-- C6 counterexample: a 12287-byte all-ASCII document overflows the
escape stage (the escaper signals failure by returning length zero), yet
`sendReply` still hands a frame — the degenerate 3-byte frame — to the
transport, so a reply is transmitted. -/
theorem c6_counterexample_overflow_still_transmits :
    escapeJSONChecked 0 (List.replicate 12287 97) (sysexMaxSize - 2) = none
    ∧ sendReply 0 (List.replicate 12287 97) =
        [systemExclusiveStart, 0x7d, systemExclusiveEnd] := by
  have hlen : (List.replicate 12287 (97 : Nat)).length = 12287 := List.length_replicate ..
  have hnone : escapeJSONChecked 0 (List.replicate 12287 97) (sysexMaxSize - 2) = none := by
    unfold escapeJSONChecked
    apply escLoop_ascii_overflow
    · intro h
      have hl := congrArg List.length h
      rw [hlen] at hl
      exact absurd hl (by decide)
    · intro b hb
      rw [List.eq_of_mem_replicate hb]
      omega
    · rw [hlen]
      decide
    · exact le_rfl
  refine ⟨hnone, ?_⟩
  unfold sendReply escapeJSON
  rw [hnone]
  rfl

/-- C6 amended: when the escaped reply document would exceed the
remaining message capacity the escaper returns a zero-length result
(never partial output), so the JSON payload is dropped entirely — but a
reply frame is still transmitted: exactly the degenerate 3-byte frame of
SysEx start, the private-use id 0x7d, and SysEx end. -/
theorem c6_amended_overflow_drops_payload (junk : Nat) (json : List Nat)
    (hov : escapeJSONChecked junk json (sysexMaxSize - 2) = none) :
    escapeJSON junk json (sysexMaxSize - 2) = []
    ∧ sendReply junk json = [systemExclusiveStart, 0x7d, systemExclusiveEnd] := by
  constructor
  · simp [escapeJSON, hov]
  · simp [sendReply, escapeJSON, hov, systemExclusiveStart, systemExclusiveEnd]

/-- Witness for the amended C6 at the concrete overflowing document. -/
theorem c6_amended_overflow_drops_payload_witness :
    escapeJSON 0 (List.replicate 12287 97) (sysexMaxSize - 2) = []
    ∧ sendReply 0 (List.replicate 12287 97) =
        [systemExclusiveStart, 0x7d, systemExclusiveEnd] :=
  c6_amended_overflow_drops_payload 0 (List.replicate 12287 97) (by
    unfold escapeJSONChecked
    apply escLoop_ascii_overflow
    · intro h
      have hl := congrArg List.length h
      rw [List.length_replicate] at hl
      exact absurd hl (by decide)
    · intro b hb
      rw [List.eq_of_mem_replicate hb]
      omega
    · rw [List.length_replicate]
      decide
    · exact le_rfl)

/-- C5 counterexample: a one-character name — length 1, inside the
claimed 1..31 storing range — is cleared rather than stored, because the
source requires `strlen(n) > 1`: the custom USB name ends up NULL and
the record's name field ends up all-NUL. -/
theorem c5_counterexample_length_one_name_cleared :
    (handleMethod (fun _ => []) (fun _ _ => true) 8192 (initialState 7)
      { token := none, method := "writeConfiguration", channel := none, rebootPorts := none,
        config := some { usb := some { name := some [65], ports := none } },
        firmware := none }).1.system.name = none
    ∧ (handleMethod (fun _ => []) (fun _ _ => true) 8192 (initialState 7)
      { token := none, method := "writeConfiguration", channel := none, rebootPorts := none,
        config := some { usb := some { name := some [65], ports := none } },
        firmware := none }).1.conf.getD 8 0 = 0 := by
  constructor
  · decide
  · decide

/-- C5 amended: a `writeConfiguration` request carrying a usb.name of
length 2..31 stores the name into the configuration record (followed by
its NUL terminator) and makes it the custom USB name; a name of length 0
or 1 clears the stored name; in both cases the merged record is
persisted and a full-state reply is sent. -/
theorem c5_amended_name_merge_rules
    (decodeF : List Nat → List Nat) (verifyF : Nat → List Nat → Bool) (blockSize : Nat)
    (s : DeviceState) (req : Request) (c : ConfigObj) (u : UsbConfig) (n : List Nat)
    (hm : req.method = "writeConfiguration") (hc : req.config = some c)
    (hu : c.usb = some u) (hn : u.name = some n) (h52 : s.conf.length = 52) :
    (2 ≤ n.length → n.length ≤ 31 →
      (handleMethod decodeF verifyF blockSize s req).1.system.name = some n
      ∧ ∀ k, k ≤ n.length →
          (handleMethod decodeF verifyF blockSize s req).1.conf.getD (8 + k) 0
            = (n ++ [0]).getD k 0)
    ∧ (n.length ≤ 1 →
      (handleMethod decodeF verifyF blockSize s req).1.system.name = none
      ∧ ∀ k, k < 32 →
          (handleMethod decodeF verifyF blockSize s req).1.conf.getD (8 + k) 0 = 0)
    ∧ Effect.eepromWrite 0 (handleMethod decodeF verifyF blockSize s req).1.conf
        ∈ (handleMethod decodeF verifyF blockSize s req).2
    ∧ (handleMethod decodeF verifyF blockSize s req).2.getLast? = some Effect.reply := by
  have hfold : handleMethod decodeF verifyF blockSize s req = handleWriteConfig s req := by
    simp [handleMethod, hm]
  rw [hfold]
  have hpersist : ∀ (x : List Nat) (j v1 m z : Nat), 8 ≤ j → j < 40 →
      (setLE32 (setLE32 (setLE32 x 4 v1) 44 m) 48 z).getD j 0 = x.getD j 0 := by
    intro x j v1 m z hj1 hj2
    rw [getD_setLE32_ne _ _ _ _ (by omega), getD_setLE32_ne _ _ _ _ (by omega),
      getD_setLE32_ne _ _ _ _ (by omega)]
  have hbyte40 : ∀ (x : List Nat) (p j : Nat), j < 40 → (setByte x 40 p).getD j 0 = x.getD j 0 :=
    fun x p j hj => getD_set_ne _ _ _ _ (by omega)
  have hstored : ∀ k, k ≤ n.length → n.length ≤ 31 →
      (writeBytes s.conf 8 (n ++ [0])).getD (8 + k) 0 = (n ++ [0]).getD k 0 := by
    intro k hk h31
    apply writeBytes_getD_in
    · simp
      omega
    · simp
      omega
  have hcleared : ∀ k, k < 32 →
      (writeBytes s.conf 8 (List.replicate 32 0)).getD (8 + k) 0 = 0 := by
    intro k hk
    rw [writeBytes_getD_in _ _ _ _ (by simp [hk]) (by simp; omega)]
    rw [List.getD_eq_getElem?_getD, List.getElem?_replicate]
    simp [hk]
  simp only [handleWriteConfig]
  rw [hc]
  dsimp only
  rw [hu]
  dsimp only
  rw [hn]
  dsimp only
  cases hup : u.ports with
  | none =>
    dsimp only
    by_cases hcond : 1 < n.length ∧ n.length < 32
    · rw [if_pos hcond]
      dsimp only [writeConfiguration]
      refine ⟨fun h2 h31 => ⟨rfl, fun k hk => ?_⟩, fun h1 => absurd hcond.1 (by omega), ?_, ?_⟩
      · rw [hpersist _ _ _ _ _ (by omega) (by omega)]
        exact hstored k hk (by omega)
      · exact List.mem_append_left _ (List.mem_append_right _ (List.mem_cons_self _ _))
      · exact List.getLast?_concat _
    · rw [if_neg hcond]
      dsimp only [writeConfiguration]
      refine ⟨fun h2 h31 =>
          absurd (⟨by omega, by omega⟩ : 1 < n.length ∧ n.length < 32) hcond,
        fun h1 => ⟨rfl, fun k hk => ?_⟩, ?_, ?_⟩
      · rw [hpersist _ _ _ _ _ (by omega) (by omega)]
        exact hcleared k hk
      · exact List.mem_append_left _ (List.mem_append_right _ (List.mem_cons_self _ _))
      · exact List.getLast?_concat _
  | some pj =>
    dsimp only
    by_cases hpc : 1 ≤ pj % 256 ∧ pj % 256 ≤ 16
    · rw [if_pos hpc]
      by_cases hcond : 1 < n.length ∧ n.length < 32
      · rw [if_pos hcond]
        dsimp only [writeConfiguration]
        refine ⟨fun h2 h31 => ⟨rfl, fun k hk => ?_⟩, fun h1 => absurd hcond.1 (by omega), ?_, ?_⟩
        · rw [hpersist _ _ _ _ _ (by omega) (by omega), hbyte40 _ _ _ (by omega)]
          exact hstored k hk (by omega)
        · exact List.mem_append_left _ (List.mem_append_right _ (List.mem_cons_self _ _))
        · exact List.getLast?_concat _
      · rw [if_neg hcond]
        dsimp only [writeConfiguration]
        refine ⟨fun h2 h31 =>
            absurd (⟨by omega, by omega⟩ : 1 < n.length ∧ n.length < 32) hcond,
          fun h1 => ⟨rfl, fun k hk => ?_⟩, ?_, ?_⟩
        · rw [hpersist _ _ _ _ _ (by omega) (by omega), hbyte40 _ _ _ (by omega)]
          exact hcleared k hk
        · exact List.mem_append_left _ (List.mem_append_right _ (List.mem_cons_self _ _))
        · exact List.getLast?_concat _
    · rw [if_neg hpc]
      by_cases hcond : 1 < n.length ∧ n.length < 32
      · rw [if_pos hcond]
        dsimp only [writeConfiguration]
        refine ⟨fun h2 h31 => ⟨rfl, fun k hk => ?_⟩, fun h1 => absurd hcond.1 (by omega), ?_, ?_⟩
        · rw [hpersist _ _ _ _ _ (by omega) (by omega)]
          exact hstored k hk (by omega)
        · exact List.mem_append_left _ (List.mem_append_right _ (List.mem_cons_self _ _))
        · exact List.getLast?_concat _
      · rw [if_neg hcond]
        dsimp only [writeConfiguration]
        refine ⟨fun h2 h31 =>
            absurd (⟨by omega, by omega⟩ : 1 < n.length ∧ n.length < 32) hcond,
          fun h1 => ⟨rfl, fun k hk => ?_⟩, ?_, ?_⟩
        · rw [hpersist _ _ _ _ _ (by omega) (by omega)]
          exact hcleared k hk
        · exact List.mem_append_left _ (List.mem_append_right _ (List.mem_cons_self _ _))
        · exact List.getLast?_concat _

/-- Witness for the amended C5: the two-character name `AB` is stored
(first stored byte 65, then 66, then the NUL terminator), becomes the
custom USB name, and the request is persisted and answered. -/
theorem c5_amended_name_merge_rules_witness :
    (handleMethod (fun _ => []) (fun _ _ => true) 8192 (initialState 7)
      { token := none, method := "writeConfiguration", channel := none, rebootPorts := none,
        config := some { usb := some { name := some [65, 66], ports := none } },
        firmware := none }).1.system.name = some [65, 66]
    ∧ (handleMethod (fun _ => []) (fun _ _ => true) 8192 (initialState 7)
      { token := none, method := "writeConfiguration", channel := none, rebootPorts := none,
        config := some { usb := some { name := some [65, 66], ports := none } },
        firmware := none }).1.conf.getD (8 + 0) 0 = ([65, 66] ++ [0]).getD 0 0
    ∧ (handleMethod (fun _ => []) (fun _ _ => true) 8192 (initialState 7)
      { token := none, method := "writeConfiguration", channel := none, rebootPorts := none,
        config := some { usb := some { name := some [65, 66], ports := none } },
        firmware := none }).2.getLast? = some Effect.reply := by
  obtain ⟨h1, h2, h3, h4⟩ := c5_amended_name_merge_rules (fun _ => []) (fun _ _ => true) 8192
    (initialState 7)
    { token := none, method := "writeConfiguration", channel := none, rebootPorts := none,
      config := some { usb := some { name := some [65, 66], ports := none } },
      firmware := none }
    { usb := some { name := some [65, 66], ports := none } }
    { name := some [65, 66], ports := none } [65, 66] rfl rfl rfl rfl (by decide)
  exact ⟨(h1 (by decide) (by decide)).1, (h1 (by decide) (by decide)).2 0 (by decide), h4⟩

end V2Device
